import Mathlib

/-!
Verification development for the LogTR log-template repair system.

The definitions below are a shallow embedding of the decision logic in
`auto_repair_failed.py` and `check_all_logs.py`:

* the pattern matcher (`check_pattern_in_logs`, `check_dual_patterns_with_sampling`,
  `convert_template_to_regex`) is modelled over corpora of character lists; a
  pattern is either a plain literal (Python `pattern in content`) or a template
  converted to a regex of literal chunks separated by `.*` wildcards, whose
  `re.search` semantics is "the chunks occur left to right as substrings";
  the dual-pattern pass, which `re.compile`s raw plain pattern text, is
  modelled with its failure path: plain text that is not a valid regex makes
  the pass return an error record instead of statistics;
* the length-gap grouper `_group_logs_by_param_length`;
* the redirect-budget state machine `_run_repair_state_machine`;
* the SPLIT stage decision gates of `_handle_template_split_v2` and the
  coverage computations of `analyze_template_split` /
  `analyze_template_split_from_logs`;
* the fallback logic of `ask_llm_for_redirect_decision`.

LLM (oracle) outputs and regeneration test outcomes are external inputs and
appear as parameters of the embedded decision functions.
-/

namespace LogTR

/-- One corpus row, as produced by the per-event CSV reader
(`LineId`, `Content`).  Content is modelled as a list of characters. -/
structure LogRow where
  lineId : Nat
  content : List Char
deriving DecidableEq, Repr

/-- A verification pattern, after the normalisation performed by
`check_pattern_in_logs` / `convert_template_to_regex`:
either a plain literal (matched with Python `pattern in content`,
i.e. substring containment), or a template containing placeholders,
auto-converted to a regex whose literal chunks (the escaped text between
the placeholders) are separated by `.*` wildcards and evaluated with
`re.search`. -/
inductive Pat where
  | plain (lit : List Char)
  | template (chunks : List (List Char))
deriving DecidableEq, Repr

/-- `re.search` semantics for the converted template regex
`chunk₀ .* chunk₁ .* ... .* chunkₙ`: the search succeeds iff the chunks
occur somewhere in the string, left to right and without overlap.
(Log contents are single CSV lines, so the `.`-excludes-newline caveat of
Python regexes does not arise.) -/
def chunksSearch : List (List Char) → List Char → Bool
  | [], _ => true
  | c :: cs, s =>
    (List.range (s.length + 1)).any fun i =>
      decide ((s.drop i).take c.length = c) && chunksSearch cs (s.drop (i + c.length))

/-- Per-line match test of `check_pattern_in_logs`:
`matched = pattern in content` for a plain pattern, and
`matched = regex.search(content) is not None` for a converted template. -/
def patMatches : Pat → List Char → Bool
  | .plain lit, s => decide (lit <:+: s)
  | .template cs, s => chunksSearch cs s

/-- Result record of `check_pattern_in_logs` (the fields the repair logic
consumes). -/
structure PatternCheckResult where
  all_match : Bool
  total_count : Nat
  match_count : Nat
  mismatch_count : Nat
  match_rate : ℚ
  mismatch_samples : List LogRow
deriving DecidableEq, Repr

/-- `check_pattern_in_logs` (check_all_logs.py): scan every row of the
per-event corpus, count matches, keep up to 10 mismatching rows,
`match_rate = match_count / total_count if total_count > 0 else 0`,
`all_match = (mismatch_count == 0)`. -/
def check_pattern_in_logs (pattern : Pat) (rows : List LogRow) : PatternCheckResult :=
  let total := rows.length
  let mc := (rows.filter fun r => patMatches pattern r.content).length
  let mismatches := rows.filter fun r => ! patMatches pattern r.content
  { all_match := decide (total - mc = 0)
    total_count := total
    match_count := mc
    mismatch_count := total - mc
    match_rate := if 0 < total then (mc : ℚ) / (total : ℚ) else 0
    mismatch_samples := mismatches.take 10 }

/-- A raw pattern text, before the per-pass treatment of
check_all_logs.py.  The code distinguishes the cases by content:

* `template chunks` — the text contains the `<*>` placeholder; both the
  single-pattern pass (with `use_regex=False`) and the dual-pattern pass
  convert it with `convert_template_to_regex` into the chunk regex;
* `plainLiteral lit` — plain text, a valid regex all of whose characters
  are literals (no metacharacters): the single pass matches it by
  substring containment (`pattern in content`), and the dual pass
  `re.compile`s the raw text, whose `re.search` then coincides with
  substring containment;
* `plainInvalid lit` — plain text that is not a valid regex (for example
  an unbalanced parenthesis): the single pass still matches it by
  substring containment, but the dual pass fails in `re.compile` and
  `check_dual_patterns_with_sampling` returns an error record.

(Plain text that compiles but carries regex metacharacters with
non-literal meaning is outside this embedding's pattern language.) -/
inductive RawPat where
  | template (chunks : List (List Char))
  | plainLiteral (lit : List Char)
  | plainInvalid (lit : List Char)
deriving DecidableEq, Repr

/-- The single-pattern pass of `check_pattern_in_logs` with
`use_regex=False`: a pattern containing `<*>` is auto-converted to the
chunk regex, plain text (valid regex or not) is matched by substring
containment. -/
def singlePassPat : RawPat → Pat
  | .template cs => .template cs
  | .plainLiteral lit => .plain lit
  | .plainInvalid lit => .plain lit

/-- The compilation step of `check_dual_patterns_with_sampling`: a
pattern containing `<*>` is converted with `convert_template_to_regex`,
plain text is `re.compile`d as raw regex source, which raises `re.error`
on invalid text and the function returns `{'error': ...}`. -/
def compileForDualPass : RawPat → Except String Pat
  | .template cs => .ok (.template cs)
  | .plainLiteral lit => .ok (.plain lit)
  | .plainInvalid _ => .error "Regex error"

/-- The statistics of `check_dual_patterns_with_sampling` used by the
repair logic: both compiled patterns are evaluated with `re.search` over
the same corpus pass, and the two match rates are `count / total` (0 on
an empty corpus). -/
structure DualCheckStats where
  total_count : Nat
  new_match_count : Nat
  old_match_count : Nat
  new_match_rate : ℚ
  old_match_rate : ℚ
deriving DecidableEq, Repr

/-- `check_dual_patterns_with_sampling` (check_all_logs.py): compile both
patterns (returning the error record if either `re.compile` raises), then
scan the corpus once counting matches of each; restricted to the counts
and rates (the captured sample lines are not consumed by the decision
logic modelled here). -/
def check_dual_patterns (newPat oldPat : RawPat) (rows : List LogRow) :
    Except String DualCheckStats :=
  match compileForDualPass newPat, compileForDualPass oldPat with
  | .error e, _ => .error e
  | .ok _, .error e => .error e
  | .ok np, .ok op =>
    let total := rows.length
    let nmc := (rows.filter fun r => patMatches np r.content).length
    let omc := (rows.filter fun r => patMatches op r.content).length
    .ok { total_count := total
          new_match_count := nmc
          old_match_count := omc
          new_match_rate := if 0 < total then (nmc : ℚ) / (total : ℚ) else 0
          old_match_rate := if 0 < total then (omc : ℚ) / (total : ℚ) else 0 }

/-- The `RepairResult` status constants of auto_repair_failed.py: the values a
stage handler can return to the state machine. -/
inductive RepairResult where
  | CONTINUE
  | GIVE_UP
  | REDIRECT_TEMPLATE
  | REDIRECT_DESCRIPTION
  | REDIRECT_GENERATOR
  | REDIRECT_SPLIT
deriving DecidableEq, Repr

/-- The four repair stages of the state machine. -/
inductive Stage where
  | TEMPLATE
  | DESCRIPTION
  | GENERATOR
  | SPLIT
deriving DecidableEq, Repr

/-- The target stage of a redirect status (`none` for the terminal
statuses `CONTINUE` and `GIVE_UP`). -/
def redirectTarget : RepairResult → Option Stage
  | .REDIRECT_TEMPLATE => some .TEMPLATE
  | .REDIRECT_DESCRIPTION => some .DESCRIPTION
  | .REDIRECT_GENERATOR => some .GENERATOR
  | .REDIRECT_SPLIT => some .SPLIT
  | .CONTINUE => none
  | .GIVE_UP => none

/-- Whether a handler result status is one of the four `REDIRECT_*` signals. -/
def isRedirectStatus (r : RepairResult) : Bool :=
  (redirectTarget r).isSome

/-- A stage handler result: the status plus the accompanying reason string
(`result['status']`, `result['reason']`). -/
structure HandlerResult where
  status : RepairResult
  reason : String
deriving DecidableEq, Repr

/-- The `final_status` values `_run_repair_state_machine` can halt with
(for handler results drawn from the `RepairResult` constants), each paired
with its `final_reason` string. -/
inductive FinalStatus where
  | success (stage : Stage) (reason : String)
  | giveUp (reason : String)
  | maxRedirectsReached (reason : String)
deriving DecidableEq, Repr

/-- The fixed reason recorded when the redirect budget is exhausted
(the Python code interpolates the numeric budget into this message). -/
def maxRedirectsReason : String := "Reached max redirect limit"

/-- The transition loop of `_run_repair_state_machine`, driven by the
sequence of results the stage handlers return (handler internals — oracle
calls, corpus checks — are external, so the trace of their results is the
input). `redirect_count` starts at `rc`; on `CONTINUE` the machine halts
with `SUCCESS_<stage>`, on `GIVE_UP` with `GIVE_UP`, and on a redirect it
increments `redirect_count` and halts with `MAX_REDIRECTS_REACHED` iff the
incremented count exceeds `maxR`, otherwise it loops at the target stage.
Returns `none` when the trace is exhausted with the machine still
running, together with the final `redirect_count` on a halt. -/
def runRepairStateMachine : Stage → Nat → Nat → List HandlerResult → Option (FinalStatus × Nat)
  | _, _, _, [] => none
  | stage, rc, maxR, r :: rs =>
    match r.status with
    | .CONTINUE => some (.success stage r.reason, rc)
    | .GIVE_UP => some (.giveUp r.reason, rc)
    | .REDIRECT_TEMPLATE =>
      if rc + 1 > maxR then some (.maxRedirectsReached maxRedirectsReason, rc + 1)
      else runRepairStateMachine .TEMPLATE (rc + 1) maxR rs
    | .REDIRECT_DESCRIPTION =>
      if rc + 1 > maxR then some (.maxRedirectsReached maxRedirectsReason, rc + 1)
      else runRepairStateMachine .DESCRIPTION (rc + 1) maxR rs
    | .REDIRECT_GENERATOR =>
      if rc + 1 > maxR then some (.maxRedirectsReached maxRedirectsReason, rc + 1)
      else runRepairStateMachine .GENERATOR (rc + 1) maxR rs
    | .REDIRECT_SPLIT =>
      if rc + 1 > maxR then some (.maxRedirectsReached maxRedirectsReason, rc + 1)
      else runRepairStateMachine .SPLIT (rc + 1) maxR rs

/-- `_run_repair_state_machine` with the possibility that a stage handler
raises an exception (`Except.error`).  The loop body of the Python state
machine contains no `try`/`except` around the handler calls, and neither
does its caller's per-event loop, so a raised exception propagates out of
the state machine instead of being converted into a terminal status:
the `.error` case returns the error unchanged. -/
def runRepairStateMachineExc :
    Stage → Nat → Nat → List (Except String HandlerResult) →
    Except String (Option (FinalStatus × Nat))
  | _, _, _, [] => .ok none
  | stage, rc, maxR, item :: rest =>
    match item with
    | .error e => .error e
    | .ok r =>
      match r.status with
      | .CONTINUE => .ok (some (.success stage r.reason, rc))
      | .GIVE_UP => .ok (some (.giveUp r.reason, rc))
      | .REDIRECT_TEMPLATE =>
        if rc + 1 > maxR then .ok (some (.maxRedirectsReached maxRedirectsReason, rc + 1))
        else runRepairStateMachineExc .TEMPLATE (rc + 1) maxR rest
      | .REDIRECT_DESCRIPTION =>
        if rc + 1 > maxR then .ok (some (.maxRedirectsReached maxRedirectsReason, rc + 1))
        else runRepairStateMachineExc .DESCRIPTION (rc + 1) maxR rest
      | .REDIRECT_GENERATOR =>
        if rc + 1 > maxR then .ok (some (.maxRedirectsReached maxRedirectsReason, rc + 1))
        else runRepairStateMachineExc .GENERATOR (rc + 1) maxR rest
      | .REDIRECT_SPLIT =>
        if rc + 1 > maxR then .ok (some (.maxRedirectsReached maxRedirectsReason, rc + 1))
        else runRepairStateMachineExc .SPLIT (rc + 1) maxR rest

/-- The fallback branch of `ask_llm_for_redirect_decision`: when the
oracle call raises or its structured output cannot be parsed, the
`except` clause returns `REDIRECT_DESCRIPTION` if the substring `2.2a`
occurs in `current_stage` and redirects remain, `REDIRECT_GENERATOR` if
`2.2b` occurs in `current_stage` and redirects remain, and `GIVE_UP`
otherwise.  The call sites pass the stage tags
`2.2a-template-repair`, `2.2b-description-repair`,
`2.2c-generator-retry`, `SPLIT` and `2.2d-template-split`. -/
def ask_llm_redirect_fallback (current_stage : String) (remaining_redirects : Nat) : RepairResult :=
  if "2.2a".toList <:+: current_stage.toList ∧ 0 < remaining_redirects then
    .REDIRECT_DESCRIPTION
  else if "2.2b".toList <:+: current_stage.toList ∧ 0 < remaining_redirects then
    .REDIRECT_GENERATOR
  else
    .GIVE_UP

/-- One entry of the `verification_results` list built by
`analyze_template_split` / `analyze_template_split_from_logs`: the outcome
of `check_pattern_by_event` for one candidate split template. -/
structure SplitVerifyResult where
  match_count : Nat
  total_count : Nat
deriving DecidableEq, Repr

/-- Combined coverage as computed by `analyze_template_split` (the
dual-pattern flow redirected from the TEMPLATE stage):
`total_covered / total_logs if total_logs > 0 else 0`, where `total_logs`
is the sampling result's corpus size.  No cap is applied. -/
def split_coverage_rate_dual (vrs : List SplitVerifyResult) (total_logs : Nat) : ℚ :=
  let total_covered := (vrs.map fun v => v.match_count).sum
  if 0 < total_logs then (total_covered : ℚ) / (total_logs : ℚ) else 0

/-- Combined coverage as computed by `analyze_template_split_from_logs`
(the length-gap flow): `min(total_covered / total_logs, 1.0)` with
`total_logs` taken from the first verification result (0 if there are
none). -/
def split_coverage_rate_from_logs (vrs : List SplitVerifyResult) : ℚ :=
  let total_logs := ((vrs.head?).map fun v => v.total_count).getD 0
  let total_covered := (vrs.map fun v => v.match_count).sum
  if 0 < total_logs then min ((total_covered : ℚ) / (total_logs : ℚ)) 1 else 0

/-- Outcome classes of the SPLIT stage's `decision == 'SPLIT'` branch:
either the handler returns `CONTINUE` (split accepted), or it consults
`ask_llm_for_redirect_decision` / gives up (every non-`CONTINUE` exit of
the branch). -/
inductive SplitStageResult where
  | continueSuccess
  | consultRedirect
deriving DecidableEq, Repr

/-- The acceptance logic of the `decision == 'SPLIT'` branch of
`_handle_template_split_v2` (new flow): with the oracle's candidate
templates `split_templates`, their per-template corpus verifications
`vrs`, and the regeneration outcomes `testMatches` of
`_test_samples_with_split_templates` on the failed samples (one boolean
per sample; regeneration itself is an oracle call, so the outcomes are
inputs), the handler returns `CONTINUE` iff templates were provided,
verification results exist, the combined coverage is at least 90%, and
`success_count` (the number of passing sample tests) is nonzero. -/
def split_decision_outcome (split_templates : List (List Char))
    (vrs : List SplitVerifyResult) (testMatches : List Bool) : SplitStageResult :=
  if split_templates = [] then .consultRedirect
  else if vrs ≠ [] ∧ (9 : ℚ) / 10 ≤ split_coverage_rate_from_logs vrs then
    if (testMatches.filter fun b => b).length = 0 then .consultRedirect else .continueSuccess
  else .consultRedirect

/-- Outcome classes of the pattern-verification-failure branch of
`_handle_template_error_v2` (the `not all_match` case after a
`needs_check` verification): either the handler returns `REDIRECT_SPLIT`
directly, or it falls through to `ask_llm_for_redirect_decision`. -/
inductive TemplateVerifyAction where
  | redirectSplit
  | askOracleRedirect
deriving DecidableEq, Repr

/-- The split-detection logic in the verification-failure branch of
`_handle_template_error_v2` (with `check_pattern_is_regex = False`, the
default): if `0 < match_rate < 1.0` for the proposed check pattern, run
`check_dual_patterns_with_sampling` with the check pattern and the
original template over the same corpus; only when that sampling pass
succeeds (`if 'error' not in sampling_result`, line 2826) and
`old_match_rate > 0` does the handler return `REDIRECT_SPLIT` without
consulting the oracle's redirect decision; every other path of the
branch — including a dual-pass `re.compile` failure — asks the oracle. -/
def template_verification_failure_action (checkPat origTemplate : RawPat)
    (rows : List LogRow) : TemplateVerifyAction :=
  let pc := check_pattern_in_logs (singlePassPat checkPat) rows
  if 0 < pc.match_rate ∧ pc.match_rate < 1 then
    match check_dual_patterns checkPat origTemplate rows with
    | .ok ds => if 0 < ds.old_match_rate then .redirectSplit else .askOracleRedirect
    | .error _ => .askOracleRedirect
  else .askOracleRedirect

/-- `template.replace('<*>', '')`: remove every occurrence of the
(normalised) placeholder marker from the template, left to right. -/
def removeStars : List Char → List Char
  | '<' :: '*' :: '>' :: rest => removeStars rest
  | c :: rest => c :: removeStars rest
  | [] => []

/-- `template_fixed_len = len(template.replace('<*>', ''))`. -/
def template_fixed_length (template : List Char) : Nat :=
  (removeStars template).length

/-- `param_length = len(content) - template_fixed_len`, clamped at 0
(natural subtraction performs the clamp of the Python guard). -/
def param_length (template : List Char) (content : List Char) : Nat :=
  content.length - template_fixed_length template

/-- The `length_details` list of `_group_logs_by_param_length`: each log
paired with its parameter length. -/
def length_details (logs : List LogRow) (template : List Char) : List (LogRow × Nat) :=
  logs.map fun l => (l, param_length template l.content)

/-- `sorted_unique_lengths = sorted(set(all_lengths))`. -/
def sorted_unique_lengths (logs : List LogRow) (template : List Char) : List Nat :=
  (((length_details logs template).map fun d => d.2).toFinset).sort (· ≤ ·)

/-- `max(gaps, key=lambda x: x[0])`: Python `max` returns the first
element attaining the maximal key. -/
def pickMaxGap : List (Nat × Nat × Nat) → Nat × Nat × Nat
  | [] => (0, 0, 0)
  | g :: gs => gs.foldl (fun acc x => if x.1 > acc.1 then x else acc) g

/-- One length group: the member `(log, param_length)` pairs (the
`group1_logs` / `group2_logs` lists of the source) and the stored
`count`. -/
structure GroupData where
  members : List (LogRow × Nat)
  count : Nat
deriving DecidableEq, Repr

/-- The `gap_info` record of `_group_logs_by_param_length`. -/
structure GapInfo where
  threshold : ℚ
  gap_size : Nat
  min_length : Nat
  max_length : Nat
deriving DecidableEq, Repr

/-- The analysis record returned by `_group_logs_by_param_length`. -/
structure GroupAnalysis where
  groups : List GroupData
  gap_info : GapInfo
  length_details : List (LogRow × Nat)
  all_lengths : List Nat
deriving DecidableEq, Repr

/-- The `gaps` list of `_group_logs_by_param_length`:
`(sorted_unique_lengths[i] - sorted_unique_lengths[i-1],
sorted_unique_lengths[i-1], sorted_unique_lengths[i])` for each adjacent
pair of distinct sorted lengths. -/
def gapsOf (s : List Nat) : List (Nat × Nat × Nat) :=
  (s.zip s.tail).map fun p => (p.2 - p.1, p.1, p.2)

/-- `threshold = (max_gap[1] + max_gap[2]) / 2`, the midpoint of the
selected maximal gap's bounding lengths. -/
def thresholdOf (s : List Nat) : ℚ :=
  (((pickMaxGap (gapsOf s)).2.1 : ℚ) + ((pickMaxGap (gapsOf s)).2.2 : ℚ)) / 2

/-- The multi-length branch of `_group_logs_by_param_length`: select the
maximal gap, bisect at the threshold, partition into
`length < threshold` (`group1_logs`) versus `length >= threshold`
(`group2_logs`), and append only the non-empty groups. -/
def split_branch (details : List (LogRow × Nat)) (s : List Nat) (minL maxL : Nat) :
    GroupAnalysis :=
  let group1 := details.filter fun d => decide ((d.2 : ℚ) < thresholdOf s)
  let group2 := details.filter fun d => decide (¬ ((d.2 : ℚ) < thresholdOf s))
  { groups :=
      (if group1 = [] then [] else [{ members := group1, count := group1.length }]) ++
      (if group2 = [] then [] else [{ members := group2, count := group2.length }])
    gap_info := { threshold := thresholdOf s, gap_size := (pickMaxGap (gapsOf s)).1,
                  min_length := minL, max_length := maxL }
    length_details := details
    all_lengths := (details.map fun d => d.2).mergeSort fun a b => a ≤ b }

/-- `_group_logs_by_param_length`: compute each sampled log's parameter
length, collect the distinct sorted lengths; with at most one distinct
length emit a single group; otherwise select the first maximal gap
`(gap_size, low, high)` between consecutive distinct lengths, set
`threshold = (low + high) / 2`, and partition the logs into
`length < threshold` versus `length >= threshold`, appending only the
non-empty groups (`split_branch`). -/
def group_logs_by_param_length (logs : List LogRow) (template : List Char) : GroupAnalysis :=
  let details := length_details logs template
  let allLengths := details.map fun d => d.2
  if details = [] then
    { groups := []
      gap_info := { threshold := 0, gap_size := 0, min_length := 0, max_length := 0 }
      length_details := []
      all_lengths := [] }
  else
    let sortedUnique := sorted_unique_lengths logs template
    let minL := (allLengths.min?).getD 0
    let maxL := (allLengths.max?).getD 0
    if sortedUnique.length ≤ 1 then
      { groups := [{ members := details, count := details.length }]
        gap_info := { threshold := 0, gap_size := 0, min_length := minL, max_length := maxL }
        length_details := details
        all_lengths := allLengths.mergeSort fun a b => a ≤ b }
    else
      split_branch details sortedUnique minL maxL

/-- `relative_gap = gap_size / max_length if max_length > 0 else 0`
(computed in `_handle_template_split_v2` from the grouper's `gap_info`). -/
def relative_gap (ga : GroupAnalysis) : ℚ :=
  if 0 < ga.gap_info.max_length then
    (ga.gap_info.gap_size : ℚ) / (ga.gap_info.max_length : ℚ)
  else 0

/-- Whether the new flow of `_handle_template_split_v2` reaches the
oracle's split-classification call `analyze_template_split_from_logs`:
the handler returns early (asking only for a redirect decision, never for
a split classification) when `len(groups) <= 1`, and again when
`gap_size < 10 and relative_gap < 0.3`; only past both gates is the
split-classification oracle call issued. -/
def split_oracle_gate (ga : GroupAnalysis) : Bool :=
  if ga.groups.length ≤ 1 then false
  else if ga.gap_info.gap_size < 10 ∧ relative_gap ga < 3 / 10 then false
  else true

/-! ## Theorems -/

/-- C9: when the per-event corpus file exists but contains zero log rows,
`check_pattern_in_logs` returns `all_match = true` with `total_count = 0`,
`match_count = 0` and `match_rate = 0` (so an acceptance gate testing
`all_match` passes vacuously on an empty corpus). -/
theorem empty_corpus_vacuous_all_match (p : Pat) :
    check_pattern_in_logs p [] =
      { all_match := true, total_count := 0, match_count := 0, mismatch_count := 0,
        match_rate := 0, mismatch_samples := [] } := by
  rfl

/-- C7 counterexample: on the dual-pattern flow, `analyze_template_split`
computes `coverage_rate = total_covered / total_logs` without the 1.0 cap:
two candidate templates each matching all 2 corpus lines give a combined
coverage of 2.0, exceeding 1.0, refuting the claim that the cap is applied
on both split-analysis paths. -/
theorem coverage_rate_uncapped_counterexample :
    split_coverage_rate_dual
        [{ match_count := 2, total_count := 2 }, { match_count := 2, total_count := 2 }] 2 = 2 ∧
    (1 : ℚ) < split_coverage_rate_dual
        [{ match_count := 2, total_count := 2 }, { match_count := 2, total_count := 2 }] 2 := by
  constructor
  · norm_num [split_coverage_rate_dual]
  · norm_num [split_coverage_rate_dual]

/-- C7 (amended): the combined coverage equals the sum of per-template
match counts over the corpus size capped at 1.0 only on the length-gap
flow (`analyze_template_split_from_logs`), where it consequently never
exceeds 1.0; the dual-pattern flow (`analyze_template_split`) omits the
cap, and its coverage can exceed 1.0 when the candidate patterns
overlap. -/
theorem coverage_rate_cap_amended :
    (∀ vrs : List SplitVerifyResult, split_coverage_rate_from_logs vrs ≤ 1) ∧
    split_coverage_rate_dual
        [{ match_count := 2, total_count := 2 }, { match_count := 2, total_count := 2 }] 2 = 2 := by
  constructor
  · intro vrs
    simp only [split_coverage_rate_from_logs]
    split_ifs with h
    · exact min_le_right _ 1
    · norm_num
  · norm_num [split_coverage_rate_dual]

/-- C8 counterexample: a malformed redirect-decision response from the
TEMPLATE stage (`2.2a-template-repair`) with zero remaining redirects
falls back to `GIVE_UP`, not to the stage-specific
`REDIRECT_DESCRIPTION` default the claim promises unconditionally. -/
theorem redirect_fallback_counterexample :
    ask_llm_redirect_fallback "2.2a-template-repair" 0 = RepairResult.GIVE_UP ∧
    RepairResult.GIVE_UP ≠ RepairResult.REDIRECT_DESCRIPTION := by
  exact ⟨by decide, by decide⟩

/-- C8 (amended): on a malformed or unparsable redirect-decision
response, the fallback never raises and always returns a decision;
it default-redirects TEMPLATE → DESCRIPTION and DESCRIPTION → GENERATOR
only while redirects remain, returns `GIVE_UP` from every other stage
tag, and returns `GIVE_UP` from any stage once no redirects remain. -/
theorem redirect_fallback_amended :
    (∀ rem : Nat, 0 < rem →
      ask_llm_redirect_fallback "2.2a-template-repair" rem = RepairResult.REDIRECT_DESCRIPTION ∧
      ask_llm_redirect_fallback "2.2b-description-repair" rem = RepairResult.REDIRECT_GENERATOR ∧
      ask_llm_redirect_fallback "2.2c-generator-retry" rem = RepairResult.GIVE_UP ∧
      ask_llm_redirect_fallback "SPLIT" rem = RepairResult.GIVE_UP ∧
      ask_llm_redirect_fallback "2.2d-template-split" rem = RepairResult.GIVE_UP) ∧
    (∀ stage : String, ask_llm_redirect_fallback stage 0 = RepairResult.GIVE_UP) := by
  constructor
  · intro rem hrem
    refine ⟨?_, ?_, ?_, ?_, ?_⟩ <;>
      unfold ask_llm_redirect_fallback
    · rw [if_pos ⟨by decide, hrem⟩]
    · rw [if_neg fun hc => absurd hc.1 (by decide), if_pos ⟨by decide, hrem⟩]
    · rw [if_neg fun hc => absurd hc.1 (by decide), if_neg fun hc => absurd hc.1 (by decide)]
    · rw [if_neg fun hc => absurd hc.1 (by decide), if_neg fun hc => absurd hc.1 (by decide)]
    · rw [if_neg fun hc => absurd hc.1 (by decide), if_neg fun hc => absurd hc.1 (by decide)]
  · intro stage
    unfold ask_llm_redirect_fallback
    rw [if_neg fun hc => absurd hc.2 (by omega), if_neg fun hc => absurd hc.2 (by omega)]

/-- C8 witness: the amended fallback behaviour at one remaining
redirect. -/
theorem redirect_fallback_amended_witness :
    (0 : Nat) < 1 ∧
    ask_llm_redirect_fallback "2.2a-template-repair" 1 = RepairResult.REDIRECT_DESCRIPTION :=
  ⟨by decide, (redirect_fallback_amended.1 1 (by decide)).1⟩

/-- C2 counterexample: the SPLIT-decision branch returns `CONTINUE` for a
single candidate template (fewer than the claimed two) whose coverage is
100% while one of the two failed samples does not regenerate to an exact
match — refuting both the "at least 2 templates" and the "every failed
sample regenerates" conditions of the claim. -/
theorem split_continue_counterexample :
    split_decision_outcome [['a']] [{ match_count := 10, total_count := 10 }] [true, false] =
      SplitStageResult.continueSuccess ∧
    ([['a']] : List (List Char)).length < 2 ∧
    false ∈ [true, false] := by
  have hcov : split_coverage_rate_from_logs [{ match_count := 10, total_count := 10 }] = 1 := by
    norm_num [split_coverage_rate_from_logs]
  refine ⟨?_, by decide, by decide⟩
  unfold split_decision_outcome
  rw [if_neg (by simp), if_pos ⟨by simp, by rw [hcov]; norm_num⟩]
  simp

/-- C2 (amended): in the SPLIT stage's `decision == 'SPLIT'` branch, the
handler returns `CONTINUE` exactly when the oracle supplied at least one
candidate template, verification results exist, the combined coverage is
at least 90%, and at least one failed sample regenerates to an exact
match; in every other case it issues a redirect decision instead. -/
theorem split_continue_amended (split_templates : List (List Char))
    (vrs : List SplitVerifyResult) (testMatches : List Bool) :
    split_decision_outcome split_templates vrs testMatches = SplitStageResult.continueSuccess ↔
      split_templates ≠ [] ∧ vrs ≠ [] ∧
      (9 : ℚ) / 10 ≤ split_coverage_rate_from_logs vrs ∧
      0 < (testMatches.filter fun b => b).length := by
  unfold split_decision_outcome
  split_ifs with h1 h2 h3 <;>
    simp_all [Nat.pos_iff_ne_zero]

lemma runMachine_max_count :
    ∀ (tr : List HandlerResult) (s : Stage) (rc maxR : Nat) (res : String) (n : Nat),
      rc ≤ maxR →
      runRepairStateMachine s rc maxR tr = some (.maxRedirectsReached res, n) →
      res = maxRedirectsReason ∧ n = maxR + 1 := by
  intro tr
  induction tr with
  | nil =>
    intro s rc maxR res n _ h
    simp [runRepairStateMachine] at h
  | cons r rs ih =>
    intro s rc maxR res n hrc h
    obtain ⟨st, reason⟩ := r
    cases st <;> simp only [runRepairStateMachine] at h
    · exact absurd h (by simp)
    · exact absurd h (by simp)
    all_goals {
      by_cases hb : rc + 1 > maxR
      · rw [if_pos hb] at h
        obtain ⟨h1, h2⟩ := Prod.mk.injEq .. ▸ (Option.some.injEq .. ▸ h)
        cases h1
        exact ⟨rfl, by omega⟩
      · rw [if_neg hb] at h
        exact ih _ _ _ _ _ (by omega) h }

lemma runMachine_max_iff :
    ∀ (tr : List HandlerResult) (s : Stage) (rc maxR : Nat),
      rc ≤ maxR →
      ((∃ res n, runRepairStateMachine s rc maxR tr = some (.maxRedirectsReached res, n)) ↔
        maxR < rc + (tr.takeWhile fun r => isRedirectStatus r.status).length) := by
  intro tr
  induction tr with
  | nil =>
    intro s rc maxR hrc
    simp [runRepairStateMachine]
    omega
  | cons r rs ih =>
    intro s rc maxR hrc
    obtain ⟨st, reason⟩ := r
    cases st
    case CONTINUE =>
      have htw : (({ status := RepairResult.CONTINUE, reason := reason } : HandlerResult) :: rs).takeWhile
          (fun r => isRedirectStatus r.status) = [] := rfl
      have hrun : runRepairStateMachine s rc maxR
          ({ status := RepairResult.CONTINUE, reason := reason } :: rs) =
          some (.success s reason, rc) := rfl
      rw [htw, hrun]
      constructor
      · rintro ⟨res, n, h⟩
        exact absurd h (by simp)
      · intro h
        simp at h
        omega
    case GIVE_UP =>
      have htw : (({ status := RepairResult.GIVE_UP, reason := reason } : HandlerResult) :: rs).takeWhile
          (fun r => isRedirectStatus r.status) = [] := rfl
      have hrun : runRepairStateMachine s rc maxR
          ({ status := RepairResult.GIVE_UP, reason := reason } :: rs) =
          some (.giveUp reason, rc) := rfl
      rw [htw, hrun]
      constructor
      · rintro ⟨res, n, h⟩
        exact absurd h (by simp)
      · intro h
        simp at h
        omega
    case REDIRECT_TEMPLATE =>
      have htw : (({ status := RepairResult.REDIRECT_TEMPLATE, reason := reason } : HandlerResult) :: rs).takeWhile
          (fun r => isRedirectStatus r.status) =
          { status := RepairResult.REDIRECT_TEMPLATE, reason := reason } ::
            rs.takeWhile (fun r => isRedirectStatus r.status) := rfl
      have hrun : runRepairStateMachine s rc maxR
          ({ status := RepairResult.REDIRECT_TEMPLATE, reason := reason } :: rs) =
          if rc + 1 > maxR then some (.maxRedirectsReached maxRedirectsReason, rc + 1)
          else runRepairStateMachine .TEMPLATE (rc + 1) maxR rs := rfl
      rw [htw, hrun]
      simp only [List.length_cons]
      by_cases hb : rc + 1 > maxR
      · rw [if_pos hb]
        constructor
        · intro _
          omega
        · intro _
          exact ⟨maxRedirectsReason, rc + 1, rfl⟩
      · rw [if_neg hb]
        rw [ih .TEMPLATE (rc + 1) maxR (by omega)]
        omega
    case REDIRECT_DESCRIPTION =>
      have htw : (({ status := RepairResult.REDIRECT_DESCRIPTION, reason := reason } : HandlerResult) :: rs).takeWhile
          (fun r => isRedirectStatus r.status) =
          { status := RepairResult.REDIRECT_DESCRIPTION, reason := reason } ::
            rs.takeWhile (fun r => isRedirectStatus r.status) := rfl
      have hrun : runRepairStateMachine s rc maxR
          ({ status := RepairResult.REDIRECT_DESCRIPTION, reason := reason } :: rs) =
          if rc + 1 > maxR then some (.maxRedirectsReached maxRedirectsReason, rc + 1)
          else runRepairStateMachine .DESCRIPTION (rc + 1) maxR rs := rfl
      rw [htw, hrun]
      simp only [List.length_cons]
      by_cases hb : rc + 1 > maxR
      · rw [if_pos hb]
        constructor
        · intro _
          omega
        · intro _
          exact ⟨maxRedirectsReason, rc + 1, rfl⟩
      · rw [if_neg hb]
        rw [ih .DESCRIPTION (rc + 1) maxR (by omega)]
        omega
    case REDIRECT_GENERATOR =>
      have htw : (({ status := RepairResult.REDIRECT_GENERATOR, reason := reason } : HandlerResult) :: rs).takeWhile
          (fun r => isRedirectStatus r.status) =
          { status := RepairResult.REDIRECT_GENERATOR, reason := reason } ::
            rs.takeWhile (fun r => isRedirectStatus r.status) := rfl
      have hrun : runRepairStateMachine s rc maxR
          ({ status := RepairResult.REDIRECT_GENERATOR, reason := reason } :: rs) =
          if rc + 1 > maxR then some (.maxRedirectsReached maxRedirectsReason, rc + 1)
          else runRepairStateMachine .GENERATOR (rc + 1) maxR rs := rfl
      rw [htw, hrun]
      simp only [List.length_cons]
      by_cases hb : rc + 1 > maxR
      · rw [if_pos hb]
        constructor
        · intro _
          omega
        · intro _
          exact ⟨maxRedirectsReason, rc + 1, rfl⟩
      · rw [if_neg hb]
        rw [ih .GENERATOR (rc + 1) maxR (by omega)]
        omega
    case REDIRECT_SPLIT =>
      have htw : (({ status := RepairResult.REDIRECT_SPLIT, reason := reason } : HandlerResult) :: rs).takeWhile
          (fun r => isRedirectStatus r.status) =
          { status := RepairResult.REDIRECT_SPLIT, reason := reason } ::
            rs.takeWhile (fun r => isRedirectStatus r.status) := rfl
      have hrun : runRepairStateMachine s rc maxR
          ({ status := RepairResult.REDIRECT_SPLIT, reason := reason } :: rs) =
          if rc + 1 > maxR then some (.maxRedirectsReached maxRedirectsReason, rc + 1)
          else runRepairStateMachine .SPLIT (rc + 1) maxR rs := rfl
      rw [htw, hrun]
      simp only [List.length_cons]
      by_cases hb : rc + 1 > maxR
      · rw [if_pos hb]
        constructor
        · intro _
          omega
        · intro _
          exact ⟨maxRedirectsReason, rc + 1, rfl⟩
      · rw [if_neg hb]
        rw [ih .SPLIT (rc + 1) maxR (by omega)]
        omega

/-- C1 counterpart of the state machine: `redirect_count` starts at the
given value and increments by exactly 1 on each `REDIRECT_*` handler
result (first conjunct, the step equation); any run halting with
`MAX_REDIRECTS_REACHED` records redirect count `maxR + 1` (second
conjunct); and starting from 0 the machine halts with
`MAX_REDIRECTS_REACHED` exactly when the number of consecutive leading
redirect results exceeds the budget — never earlier, never later (third
conjunct). -/
theorem redirect_budget_protocol (s : Stage) (maxR : Nat) (tr : List HandlerResult) :
    (∀ (rc : Nat) (r : HandlerResult) (rs : List HandlerResult) (t : Stage),
        redirectTarget r.status = some t →
        runRepairStateMachine s rc maxR (r :: rs) =
          if rc + 1 > maxR then some (.maxRedirectsReached maxRedirectsReason, rc + 1)
          else runRepairStateMachine t (rc + 1) maxR rs) ∧
    (∀ (res : String) (n : Nat),
        runRepairStateMachine s 0 maxR tr = some (.maxRedirectsReached res, n) →
        res = maxRedirectsReason ∧ n = maxR + 1) ∧
    ((∃ res n, runRepairStateMachine s 0 maxR tr = some (.maxRedirectsReached res, n)) ↔
      maxR < (tr.takeWhile fun r => isRedirectStatus r.status).length) := by
  refine ⟨?_, ?_, ?_⟩
  · intro rc r rs t ht
    obtain ⟨st, reason⟩ := r
    cases st <;> simp only [redirectTarget] at ht <;> cases ht <;> rfl
  · intro res n h
    exact runMachine_max_count tr s 0 maxR res n (Nat.zero_le maxR) h
  · have := runMachine_max_iff tr s 0 maxR (Nat.zero_le maxR)
    simpa using this

/-- C1 witness: with budget 1, two consecutive redirects halt the machine
with `MAX_REDIRECTS_REACHED` at redirect count 2 = budget + 1. -/
theorem redirect_budget_protocol_witness :
    runRepairStateMachine Stage.TEMPLATE 0 1
        [{ status := .REDIRECT_DESCRIPTION, reason := "r1" },
         { status := .REDIRECT_TEMPLATE, reason := "r2" }] =
      some (.maxRedirectsReached maxRedirectsReason, 2) ∧
    (maxRedirectsReason = maxRedirectsReason ∧ 2 = 1 + 1) :=
  ⟨rfl,
    (redirect_budget_protocol Stage.TEMPLATE 1
        [{ status := .REDIRECT_DESCRIPTION, reason := "r1" },
         { status := .REDIRECT_TEMPLATE, reason := "r2" }]).2.1
      maxRedirectsReason 2 rfl⟩

/-- C3 counterexample: an exception raised by a stage handler propagates
out of the state machine (whose loop contains no exception handling)
instead of being converted into a `GIVE_UP` terminal status. -/
theorem handler_exception_escapes_counterexample :
    runRepairStateMachineExc Stage.TEMPLATE 0 3 [Except.error "boom"] = Except.error "boom" ∧
    runRepairStateMachineExc Stage.TEMPLATE 0 3 [Except.error "boom"] ≠
      Except.ok (some (FinalStatus.giveUp "boom", 0)) := by
  exact ⟨rfl, fun h => Except.noConfusion h⟩

lemma runMachineExc_total :
    ∀ (rs : List HandlerResult) (s : Stage) (rc maxR : Nat),
      rc ≤ maxR → maxR + 1 ≤ rc + rs.length →
      ∃ fs n, runRepairStateMachineExc s rc maxR (rs.map Except.ok) = Except.ok (some (fs, n)) := by
  intro rs
  induction rs with
  | nil =>
    intro s rc maxR hrc hlen
    simp at hlen
    omega
  | cons r rest ih =>
    intro s rc maxR hrc hlen
    obtain ⟨st, reason⟩ := r
    cases st <;> simp only [List.map_cons, runRepairStateMachineExc]
    · exact ⟨.success s reason, rc, rfl⟩
    · exact ⟨.giveUp reason, rc, rfl⟩
    all_goals {
      by_cases hb : rc + 1 > maxR
      · rw [if_pos hb]
        exact ⟨.maxRedirectsReached maxRedirectsReason, rc + 1, rfl⟩
      · rw [if_neg hb]
        exact ih _ (rc + 1) maxR (by omega) (by simp at hlen ⊢; omega) }

/-- C3 (amended): when every stage handler returns normally and the trace
supplies more results than the redirect budget, the state machine always
halts in one of the defined terminal statuses (each of which carries a
reason string); but an exception raised inside a stage handler propagates
out of the state machine unchanged — there is no conversion of handler
exceptions into `GIVE_UP`. -/
theorem state_machine_termination_amended :
    (∀ (e : String) (rest : List (Except String HandlerResult)) (s : Stage) (rc maxR : Nat),
        runRepairStateMachineExc s rc maxR (Except.error e :: rest) = Except.error e) ∧
    (∀ (s : Stage) (maxR : Nat) (rs : List HandlerResult), maxR < rs.length →
        ∃ fs n, runRepairStateMachineExc s 0 maxR (rs.map Except.ok) = Except.ok (some (fs, n))) := by
  constructor
  · intro e rest s rc maxR
    rfl
  · intro s maxR rs hlen
    exact runMachineExc_total rs s 0 maxR (Nat.zero_le maxR) (by omega)

/-- C3 witness: a one-element normal trace with budget 0 halts in a
defined terminal status. -/
theorem state_machine_termination_amended_witness :
    0 < [({ status := .CONTINUE, reason := "ok" } : HandlerResult)].length ∧
    ∃ fs n, runRepairStateMachineExc Stage.TEMPLATE 0 0
        ([{ status := .CONTINUE, reason := "ok" }].map Except.ok) = Except.ok (some (fs, n)) :=
  ⟨by decide,
    state_machine_termination_amended.2 Stage.TEMPLATE 0
      [{ status := .CONTINUE, reason := "ok" }] (by decide)⟩

/-- C4 counterexample: a plain check pattern that is not a valid regex
(an unbalanced parenthesis).  The single-pattern verification matches it
by substring containment, giving match rate 1/2, and the original
template matches the second corpus line — the claim's antecedent holds —
yet the dual-pattern pass fails in `re.compile`, the
`'error' not in sampling_result` guard fails, and the handler consults
the oracle's redirect decision instead of returning `REDIRECT_SPLIT`. -/
theorem template_dual_pass_error_counterexample :
    (0 < (check_pattern_in_logs (singlePassPat (RawPat.plainInvalid ['(']))
        [{ lineId := 1, content := ['(', 'x'] }, { lineId := 2, content := ['z'] }]).match_rate) ∧
    ((check_pattern_in_logs (singlePassPat (RawPat.plainInvalid ['(']))
        [{ lineId := 1, content := ['(', 'x'] }, { lineId := 2, content := ['z'] }]).match_rate < 1) ∧
    patMatches (singlePassPat (RawPat.plainLiteral ['z'])) ['z'] = true ∧
    ({ lineId := 2, content := ['z'] } : LogRow) ∈
      [({ lineId := 1, content := ['(', 'x'] } : LogRow), { lineId := 2, content := ['z'] }] ∧
    template_verification_failure_action (RawPat.plainInvalid ['(']) (RawPat.plainLiteral ['z'])
        [{ lineId := 1, content := ['(', 'x'] }, { lineId := 2, content := ['z'] }] =
      TemplateVerifyAction.askOracleRedirect ∧
    TemplateVerifyAction.askOracleRedirect ≠ TemplateVerifyAction.redirectSplit := by
  have hrate : (check_pattern_in_logs (singlePassPat (RawPat.plainInvalid ['(']))
      [{ lineId := 1, content := ['(', 'x'] }, { lineId := 2, content := ['z'] }]).match_rate =
      ((1 : ℕ) : ℚ) / ((2 : ℕ) : ℚ) := rfl
  have h1 : 0 < (check_pattern_in_logs (singlePassPat (RawPat.plainInvalid ['(']))
      [{ lineId := 1, content := ['(', 'x'] }, { lineId := 2, content := ['z'] }]).match_rate := by
    rw [hrate]
    norm_num
  have h2 : (check_pattern_in_logs (singlePassPat (RawPat.plainInvalid ['(']))
      [{ lineId := 1, content := ['(', 'x'] }, { lineId := 2, content := ['z'] }]).match_rate < 1 := by
    rw [hrate]
    norm_num
  refine ⟨h1, h2, by decide, by decide, ?_, by decide⟩
  simp only [template_verification_failure_action]
  rw [if_pos ⟨h1, h2⟩]
  rfl

/-- C4 (amended): in the TEMPLATE stage's verification-failure branch, a
check-pattern match rate strictly between 0 and 1, combined with the
original template matching at least one corpus line, makes the handler
return `REDIRECT_SPLIT` without consulting the oracle's redirect
decision — provided the dual-pattern sampling pass succeeds, that is,
both the check pattern and the original template compile in
`check_dual_patterns_with_sampling`; when that pass errors (an invalid
raw regex), the handler asks the oracle instead. -/
theorem template_partial_match_redirects_split (checkPat origTemplate : RawPat)
    (rows : List LogRow) (op : Pat)
    (h1 : 0 < (check_pattern_in_logs (singlePassPat checkPat) rows).match_rate)
    (h2 : (check_pattern_in_logs (singlePassPat checkPat) rows).match_rate < 1)
    (hok : ∃ cp, compileForDualPass checkPat = Except.ok cp)
    (hop : compileForDualPass origTemplate = Except.ok op)
    (h3 : ∃ r ∈ rows, patMatches op r.content = true) :
    template_verification_failure_action checkPat origTemplate rows =
      TemplateVerifyAction.redirectSplit := by
  obtain ⟨cp, hcp⟩ := hok
  obtain ⟨r, hr, hm⟩ := h3
  have htot : 0 < rows.length := List.length_pos.mpr (List.ne_nil_of_mem hr)
  have homc : 0 < (rows.filter fun q => patMatches op q.content).length :=
    List.length_pos.mpr (List.ne_nil_of_mem (List.mem_filter.mpr ⟨hr, hm⟩))
  have hds : check_dual_patterns checkPat origTemplate rows = Except.ok
      { total_count := rows.length
        new_match_count := (rows.filter fun q => patMatches cp q.content).length
        old_match_count := (rows.filter fun q => patMatches op q.content).length
        new_match_rate := if 0 < rows.length then
          ((rows.filter fun q => patMatches cp q.content).length : ℚ) / (rows.length : ℚ) else 0
        old_match_rate := if 0 < rows.length then
          ((rows.filter fun q => patMatches op q.content).length : ℚ) / (rows.length : ℚ)
          else 0 } := by
    simp only [check_dual_patterns, hcp, hop]
  have hpos : (0 : ℚ) < if 0 < rows.length then
      ((rows.filter fun q => patMatches op q.content).length : ℚ) / (rows.length : ℚ) else 0 := by
    rw [if_pos htot]
    exact div_pos (by exact_mod_cast homc) (by exact_mod_cast htot)
  simp only [template_verification_failure_action]
  rw [if_pos ⟨h1, h2⟩, hds]
  dsimp only
  rw [if_pos hpos]

/-- C4 witness: a two-line corpus where the check pattern (a compiling
literal) matches exactly one line (rate 1/2) and the original template
compiles and matches the other line. -/
theorem template_partial_match_redirects_split_witness :
    (0 < (check_pattern_in_logs (singlePassPat (RawPat.plainLiteral ['a']))
        [{ lineId := 1, content := ['a', 'b'] }, { lineId := 2, content := ['z'] }]).match_rate) ∧
    ((check_pattern_in_logs (singlePassPat (RawPat.plainLiteral ['a']))
        [{ lineId := 1, content := ['a', 'b'] }, { lineId := 2, content := ['z'] }]).match_rate < 1) ∧
    compileForDualPass (RawPat.plainLiteral ['z']) = Except.ok (Pat.plain ['z']) ∧
    template_verification_failure_action (RawPat.plainLiteral ['a']) (RawPat.plainLiteral ['z'])
        [{ lineId := 1, content := ['a', 'b'] }, { lineId := 2, content := ['z'] }] =
      TemplateVerifyAction.redirectSplit := by
  have hrate : (check_pattern_in_logs (singlePassPat (RawPat.plainLiteral ['a']))
      [{ lineId := 1, content := ['a', 'b'] }, { lineId := 2, content := ['z'] }]).match_rate =
      ((1 : ℕ) : ℚ) / ((2 : ℕ) : ℚ) := rfl
  have h1 : 0 < (check_pattern_in_logs (singlePassPat (RawPat.plainLiteral ['a']))
      [{ lineId := 1, content := ['a', 'b'] }, { lineId := 2, content := ['z'] }]).match_rate := by
    rw [hrate]
    norm_num
  have h2 : (check_pattern_in_logs (singlePassPat (RawPat.plainLiteral ['a']))
      [{ lineId := 1, content := ['a', 'b'] }, { lineId := 2, content := ['z'] }]).match_rate < 1 := by
    rw [hrate]
    norm_num
  exact ⟨h1, h2, rfl,
    template_partial_match_redirects_split (RawPat.plainLiteral ['a'])
      (RawPat.plainLiteral ['z'])
      [{ lineId := 1, content := ['a', 'b'] }, { lineId := 2, content := ['z'] }]
      (Pat.plain ['z']) h1 h2 ⟨Pat.plain ['a'], rfl⟩ rfl (by decide)⟩

/-- C10: pattern verification is unanchored.  A `match_rate` of 1 for a
plain pattern means every corpus line contains the pattern as a substring
somewhere (first conjunct); a plain pattern occurring anywhere inside a
line matches (second conjunct), as does a converted template chunk via
`re.search` (third conjunct); and a matching line need not equal the
pattern, so full match rate does not mean the pattern covers each line in
full (fourth conjunct). -/
theorem unanchored_substring_matching :
    (∀ (p : List Char) (rows : List LogRow),
        (check_pattern_in_logs (Pat.plain p) rows).match_rate = 1 →
        ∀ r ∈ rows, p <:+: r.content) ∧
    (∀ p x y : List Char, patMatches (Pat.plain p) (x ++ p ++ y) = true) ∧
    (∀ c x y : List Char, patMatches (Pat.template [c]) (x ++ c ++ y) = true) ∧
    (patMatches (Pat.plain ['b']) ['a', 'b', 'c'] = true ∧
      (['a', 'b', 'c'] : List Char) ≠ ['b']) := by
  refine ⟨?_, ?_, ?_, by decide⟩
  · intro p rows h r hr
    have htot : 0 < rows.length := List.length_pos.mpr (List.ne_nil_of_mem hr)
    simp only [check_pattern_in_logs] at h
    rw [if_pos htot] at h
    have hmc : ((rows.filter fun q => patMatches (Pat.plain p) q.content).length : ℚ) =
        (rows.length : ℚ) :=
      (div_eq_one_iff_eq (by exact_mod_cast htot.ne')).mp h
    have hmc2 : (rows.filter fun q => patMatches (Pat.plain p) q.content).length =
        rows.length := by
      exact_mod_cast hmc
    have hall := List.filter_length_eq_length.mp hmc2
    exact of_decide_eq_true (hall r hr)
  · intro p x y
    exact decide_eq_true ⟨x, y, rfl⟩
  · intro c x y
    have h1 : (x ++ c ++ y).drop x.length = c ++ y := by
      rw [List.append_assoc]
      exact List.drop_left x (c ++ y)
    show chunksSearch [c] (x ++ c ++ y) = true
    rw [chunksSearch, List.any_eq_true]
    refine ⟨x.length, List.mem_range.mpr ?_, ?_⟩
    · simp [List.length_append]
      omega
    · rw [h1]
      simp [List.take_left, chunksSearch]

/-- C10 witness: a corpus whose single line contains the pattern strictly
in its interior reaches match rate 1, and the pattern is an infix of that
line. -/
theorem unanchored_substring_matching_witness :
    (check_pattern_in_logs (Pat.plain ['a'])
        [{ lineId := 1, content := ['x', 'a', 'y'] }]).match_rate = 1 ∧
    ∀ r ∈ [({ lineId := 1, content := ['x', 'a', 'y'] } : LogRow)], ['a'] <:+: r.content := by
  have hrate : (check_pattern_in_logs (Pat.plain ['a'])
      [{ lineId := 1, content := ['x', 'a', 'y'] }]).match_rate = ((1 : ℕ) : ℚ) / ((1 : ℕ) : ℚ) :=
    rfl
  have h1 : (check_pattern_in_logs (Pat.plain ['a'])
      [{ lineId := 1, content := ['x', 'a', 'y'] }]).match_rate = 1 := by
    rw [hrate]
    norm_num
  exact ⟨h1,
    unanchored_substring_matching.1 ['a'] [{ lineId := 1, content := ['x', 'a', 'y'] }] h1⟩

lemma foldl_pickMax_mem (gs : List (Nat × Nat × Nat)) :
    ∀ g : Nat × Nat × Nat, gs.foldl (fun acc x => if x.1 > acc.1 then x else acc) g ∈ g :: gs := by
  induction gs with
  | nil =>
    intro g
    simp
  | cons x xs ih =>
    intro g
    rw [List.foldl_cons]
    by_cases hb : x.1 > g.1
    · rw [if_pos hb]
      rcases List.mem_cons.mp (ih x) with h1 | h1
      · rw [h1]
        simp
      · simp [List.mem_cons, h1]
    · rw [if_neg hb]
      rcases List.mem_cons.mp (ih g) with h1 | h1
      · rw [h1]
        simp
      · simp [List.mem_cons, h1]

lemma foldl_pickMax_fst_le (gs : List (Nat × Nat × Nat)) :
    ∀ g x, x ∈ g :: gs →
      x.1 ≤ (gs.foldl (fun acc y => if y.1 > acc.1 then y else acc) g).1 := by
  induction gs with
  | nil =>
    intro g x hx
    simp at hx
    rw [hx]
    simp
  | cons y ys ih =>
    intro g x hx
    rw [List.foldl_cons]
    by_cases hb : y.1 > g.1
    · rw [if_pos hb]
      rcases List.mem_cons.mp hx with h1 | h1
      · have hy := ih y y (List.mem_cons_self y ys)
        rw [h1]
        omega
      · rcases List.mem_cons.mp h1 with h2 | h2
        · rw [h2]
          exact ih y y (List.mem_cons_self y ys)
        · exact ih y x (List.mem_cons_of_mem y h2)
    · rw [if_neg hb]
      rcases List.mem_cons.mp hx with h1 | h1
      · rw [h1]
        exact ih g g (List.mem_cons_self g ys)
      · rcases List.mem_cons.mp h1 with h2 | h2
        · have hg := ih g g (List.mem_cons_self g ys)
          rw [h2]
          omega
        · exact ih g x (List.mem_cons_of_mem g h2)

lemma pickMaxGap_mem {gs : List (Nat × Nat × Nat)} (h : gs ≠ []) : pickMaxGap gs ∈ gs := by
  cases gs with
  | nil => exact absurd rfl h
  | cons g rest =>
    have := foldl_pickMax_mem rest g
    exact this

lemma pickMaxGap_fst_le {gs : List (Nat × Nat × Nat)} (x : Nat × Nat × Nat) (hx : x ∈ gs) :
    x.1 ≤ (pickMaxGap gs).1 := by
  cases gs with
  | nil => simp at hx
  | cons g rest => exact foldl_pickMax_fst_le rest g x hx

lemma sorted_lt_zip_tail :
    ∀ l : List Nat, l.Sorted (· < ·) → ∀ p ∈ l.zip l.tail, p.1 < p.2 := by
  intro l
  induction l with
  | nil =>
    intro _ p hp
    simp at hp
  | cons a t ih =>
    intro hs p hp
    cases t with
    | nil => simp at hp
    | cons b t2 =>
      simp only [List.tail_cons, List.zip_cons_cons, List.mem_cons] at hp
      rcases hp with h1 | h1
      · rw [h1]
        exact (List.sorted_cons.mp hs).1 b (List.mem_cons_self b t2)
      · exact ih (List.sorted_cons.mp hs).2 p h1

lemma sorted_unique_lengths_sorted (logs : List LogRow) (template : List Char) :
    (sorted_unique_lengths logs template).Sorted (· < ·) := by
  unfold sorted_unique_lengths
  exact Finset.sort_sorted_lt _

lemma group_logs_split_eq (logs : List LogRow) (template : List Char)
    (hdet : length_details logs template ≠ [])
    (hlen : ¬ (sorted_unique_lengths logs template).length ≤ 1) :
    group_logs_by_param_length logs template =
      split_branch (length_details logs template) (sorted_unique_lengths logs template)
        (((length_details logs template).map fun d => d.2).min?.getD 0)
        (((length_details logs template).map fun d => d.2).max?.getD 0) := by
  simp only [group_logs_by_param_length]
  rw [if_neg hdet, if_neg hlen]

/-- C5: the grouper's oracle gate.  If all sampled parameter lengths are
equal (and the sample is non-empty) the grouper emits exactly one group,
and the SPLIT handler's new flow never reaches the oracle's
split-classification call (first conjunct); the gate also blocks the call
whenever the number of groups is at most one, or `gap_size < 10` together
with `gap_size / max_length < 0.30` (second conjunct). -/
theorem uniform_length_no_split_oracle :
    (∀ (logs : List LogRow) (template : List Char) (c : Nat),
        logs ≠ [] →
        (∀ l ∈ logs, param_length template l.content = c) →
        (group_logs_by_param_length logs template).groups.length = 1 ∧
        split_oracle_gate (group_logs_by_param_length logs template) = false) ∧
    (∀ ga : GroupAnalysis,
        ga.groups.length ≤ 1 ∨ (ga.gap_info.gap_size < 10 ∧ relative_gap ga < 3 / 10) →
        split_oracle_gate ga = false) := by
  have gate_false : ∀ ga : GroupAnalysis,
      ga.groups.length ≤ 1 ∨ (ga.gap_info.gap_size < 10 ∧ relative_gap ga < 3 / 10) →
      split_oracle_gate ga = false := by
    intro ga h
    unfold split_oracle_gate
    split_ifs with h1 h2
    · rfl
    · rfl
    · rcases h with h | h
      · exact absurd h1 (absurd h (by tauto))
      · exact absurd h h2
  refine ⟨?_, gate_false⟩
  intro logs template c hne hc
  have hdet : length_details logs template ≠ [] := by
    simp [length_details, hne]
  have hmap : (length_details logs template).map (fun d => d.2) =
      logs.map fun _ => c := by
    simp only [length_details, List.map_map]
    exact List.map_congr_left fun l hl => hc l hl
  have hfin : ((length_details logs template).map fun d => d.2).toFinset = {c} := by
    rw [hmap, List.map_const']
    exact List.toFinset_replicate_of_ne_zero (by simpa using hne)
  have hsort : (sorted_unique_lengths logs template).length = 1 := by
    unfold sorted_unique_lengths
    rw [hfin, Finset.length_sort, Finset.card_singleton]
  have hlen : (group_logs_by_param_length logs template).groups.length = 1 := by
    simp only [group_logs_by_param_length]
    rw [if_neg hdet, if_pos hsort.le]
    rfl
  exact ⟨hlen, gate_false _ (Or.inl hlen.le)⟩

/-- C5 witness: two sampled logs with equal parameter length 2 under a
one-character template. -/
theorem uniform_length_no_split_oracle_witness :
    ([({ lineId := 1, content := ['a', 'b', 'c'] } : LogRow),
      { lineId := 2, content := ['x', 'y', 'z'] }] ≠ []) ∧
    (∀ l ∈ [({ lineId := 1, content := ['a', 'b', 'c'] } : LogRow),
        { lineId := 2, content := ['x', 'y', 'z'] }],
      param_length ['q'] l.content = 2) ∧
    ((group_logs_by_param_length
        [{ lineId := 1, content := ['a', 'b', 'c'] }, { lineId := 2, content := ['x', 'y', 'z'] }]
        ['q']).groups.length = 1 ∧
      split_oracle_gate (group_logs_by_param_length
        [{ lineId := 1, content := ['a', 'b', 'c'] }, { lineId := 2, content := ['x', 'y', 'z'] }]
        ['q']) = false) :=
  ⟨by decide, by decide,
    uniform_length_no_split_oracle.1
      [{ lineId := 1, content := ['a', 'b', 'c'] }, { lineId := 2, content := ['x', 'y', 'z'] }]
      ['q'] 2 (by decide) (by decide)⟩

lemma split_branch_gap_info (details : List (LogRow × Nat)) (s : List Nat) (minL maxL : Nat) :
    (split_branch details s minL maxL).gap_info =
      { threshold := thresholdOf s, gap_size := (pickMaxGap (gapsOf s)).1,
        min_length := minL, max_length := maxL } := rfl

lemma split_branch_groups (details : List (LogRow × Nat)) (s : List Nat) (minL maxL : Nat) :
    (split_branch details s minL maxL).groups =
      (if details.filter (fun d => decide ((d.2 : ℚ) < thresholdOf s)) = [] then []
       else [{ members := details.filter fun d => decide ((d.2 : ℚ) < thresholdOf s),
               count := (details.filter fun d => decide ((d.2 : ℚ) < thresholdOf s)).length }]) ++
      (if details.filter (fun d => decide (¬ ((d.2 : ℚ) < thresholdOf s))) = [] then []
       else [{ members := details.filter fun d => decide (¬ ((d.2 : ℚ) < thresholdOf s)),
               count := (details.filter fun d =>
                 decide (¬ ((d.2 : ℚ) < thresholdOf s))).length }]) := rfl

/-- C6: with at least two distinct parameter lengths, the grouper selects
a maximal gap `(low, high)` between consecutive distinct sorted lengths
(no other adjacent gap is larger), sets
`threshold = (low + high) / 2` strictly between `low` and `high`, and
partitions the logs by `length < threshold` versus `length >= threshold`
into exactly two non-empty groups. -/
theorem length_gap_bisection (logs : List LogRow) (template : List Char)
    (h2 : 2 ≤ (sorted_unique_lengths logs template).length) :
    ∃ low high : Nat,
      (low, high) ∈ (sorted_unique_lengths logs template).zip
          (sorted_unique_lengths logs template).tail ∧
      (group_logs_by_param_length logs template).gap_info.gap_size = high - low ∧
      (∀ p ∈ (sorted_unique_lengths logs template).zip
          (sorted_unique_lengths logs template).tail,
        p.2 - p.1 ≤ (group_logs_by_param_length logs template).gap_info.gap_size) ∧
      (group_logs_by_param_length logs template).gap_info.threshold =
        ((low : ℚ) + (high : ℚ)) / 2 ∧
      (low : ℚ) < (group_logs_by_param_length logs template).gap_info.threshold ∧
      (group_logs_by_param_length logs template).gap_info.threshold < (high : ℚ) ∧
      ∃ g1 g2 : GroupData,
        (group_logs_by_param_length logs template).groups = [g1, g2] ∧
        g1.members ≠ [] ∧ g2.members ≠ [] ∧
        ∀ d ∈ length_details logs template,
          (d ∈ g1.members ↔
            (d.2 : ℚ) < (group_logs_by_param_length logs template).gap_info.threshold) ∧
          (d ∈ g2.members ↔
            ¬ ((d.2 : ℚ) < (group_logs_by_param_length logs template).gap_info.threshold)) := by
  have hdet : length_details logs template ≠ [] := by
    intro h0
    have hs0 : sorted_unique_lengths logs template = [] := by
      unfold sorted_unique_lengths
      rw [h0]
      simp
    rw [hs0] at h2
    simp at h2
  have hlen : ¬ (sorted_unique_lengths logs template).length ≤ 1 := by omega
  have hga := group_logs_split_eq logs template hdet hlen
  have hsorted := sorted_unique_lengths_sorted logs template
  have hzlen : ((sorted_unique_lengths logs template).zip
      (sorted_unique_lengths logs template).tail).length =
      (sorted_unique_lengths logs template).length - 1 := by
    rw [List.length_zip, List.length_tail]
    omega
  have hgne : gapsOf (sorted_unique_lengths logs template) ≠ [] := by
    unfold gapsOf
    intro h0
    rw [List.map_eq_nil_iff] at h0
    rw [h0] at hzlen
    simp at hzlen
    omega
  have hmem : pickMaxGap (gapsOf (sorted_unique_lengths logs template)) ∈
      gapsOf (sorted_unique_lengths logs template) := pickMaxGap_mem hgne
  unfold gapsOf at hmem
  obtain ⟨q, hq_mem, hq_eq⟩ := List.mem_map.mp hmem
  have hq_eq2 : (q.2 - q.1, q.1, q.2) =
      pickMaxGap (gapsOf (sorted_unique_lengths logs template)) := hq_eq
  have hlh : q.1 < q.2 := sorted_lt_zip_tail _ hsorted q hq_mem
  have hq12 : (q.1 : ℚ) < (q.2 : ℚ) := by exact_mod_cast hlh
  have hthr_eq : thresholdOf (sorted_unique_lengths logs template) =
      ((q.1 : ℚ) + (q.2 : ℚ)) / 2 := by
    unfold thresholdOf
    rw [← hq_eq2]
  have hthr_lo : (q.1 : ℚ) < thresholdOf (sorted_unique_lengths logs template) := by
    rw [hthr_eq]
    linarith
  have hthr_hi : thresholdOf (sorted_unique_lengths logs template) < (q.2 : ℚ) := by
    rw [hthr_eq]
    linarith
  have hthr_proj : (group_logs_by_param_length logs template).gap_info.threshold =
      thresholdOf (sorted_unique_lengths logs template) := by
    rw [hga]
    rfl
  have hgap_proj : (group_logs_by_param_length logs template).gap_info.gap_size =
      (pickMaxGap (gapsOf (sorted_unique_lengths logs template))).1 := by
    rw [hga]
    rfl
  have hattain : ∀ v ∈ sorted_unique_lengths logs template,
      ∃ d ∈ length_details logs template, d.2 = v := by
    intro v hv
    unfold sorted_unique_lengths at hv
    rw [Finset.mem_sort, List.mem_toFinset] at hv
    exact List.mem_map.mp hv
  obtain ⟨dlow, hdlow, hdlow2⟩ := hattain q.1 (List.of_mem_zip hq_mem).1
  obtain ⟨dhigh, hdhigh, hdhigh2⟩ :=
    hattain q.2 (List.mem_of_mem_tail (List.of_mem_zip hq_mem).2)
  have hdlow_in : dlow ∈ (length_details logs template).filter
      fun d => decide ((d.2 : ℚ) < thresholdOf (sorted_unique_lengths logs template)) := by
    refine List.mem_filter.mpr ⟨hdlow, decide_eq_true ?_⟩
    rw [hdlow2]
    exact hthr_lo
  have hdhigh_in : dhigh ∈ (length_details logs template).filter
      fun d => decide (¬ ((d.2 : ℚ) < thresholdOf (sorted_unique_lengths logs template))) := by
    refine List.mem_filter.mpr ⟨hdhigh, decide_eq_true ?_⟩
    rw [hdhigh2]
    exact not_lt.mpr hthr_hi.le
  have hg1ne : (length_details logs template).filter
      (fun d => decide ((d.2 : ℚ) < thresholdOf (sorted_unique_lengths logs template))) ≠ [] :=
    List.ne_nil_of_mem hdlow_in
  have hg2ne : (length_details logs template).filter
      (fun d => decide (¬ ((d.2 : ℚ) < thresholdOf (sorted_unique_lengths logs template)))) ≠ [] :=
    List.ne_nil_of_mem hdhigh_in
  have hgroups : (group_logs_by_param_length logs template).groups =
      [{ members := (length_details logs template).filter
           fun d => decide ((d.2 : ℚ) < thresholdOf (sorted_unique_lengths logs template)),
         count := ((length_details logs template).filter
           fun d => decide ((d.2 : ℚ) < thresholdOf (sorted_unique_lengths logs template))).length },
       { members := (length_details logs template).filter
           fun d => decide (¬ ((d.2 : ℚ) < thresholdOf (sorted_unique_lengths logs template))),
         count := ((length_details logs template).filter
           fun d => decide (¬ ((d.2 : ℚ) <
             thresholdOf (sorted_unique_lengths logs template)))).length }] := by
    rw [hga, split_branch_groups, if_neg hg1ne, if_neg hg2ne]
    rfl
  refine ⟨q.1, q.2, by simpa using hq_mem, ?_, ?_, ?_, ?_, ?_, ?_⟩
  · rw [hgap_proj, ← hq_eq2]
  · intro p hp
    rw [hgap_proj]
    exact pickMaxGap_fst_le (p.2 - p.1, p.1, p.2) (List.mem_map.mpr ⟨p, hp, rfl⟩)
  · rw [hthr_proj, hthr_eq]
  · rw [hthr_proj]
    exact hthr_lo
  · rw [hthr_proj]
    exact hthr_hi
  · refine ⟨_, _, hgroups, hg1ne, hg2ne, ?_⟩
    intro d hd
    rw [hthr_proj]
    constructor
    · constructor
      · intro hmem1
        exact of_decide_eq_true (List.mem_filter.mp hmem1).2
      · intro hlt
        exact List.mem_filter.mpr ⟨hd, decide_eq_true hlt⟩
    · constructor
      · intro hmem2
        exact of_decide_eq_true (List.mem_filter.mp hmem2).2
      · intro hge
        exact List.mem_filter.mpr ⟨hd, decide_eq_true hge⟩

/-- C6 witness: two logs with parameter lengths 3 and 28 under the
two-character fixed template; distinct lengths `[3, 28]`. -/
theorem length_gap_bisection_witness :
    2 ≤ (sorted_unique_lengths
        [{ lineId := 1, content := ['a', 'b', 'c', 'd', 'e'] },
         { lineId := 2, content := List.replicate 30 'x' }] ['a', 'b']).length ∧
    ∃ low high : Nat,
      (low, high) ∈ (sorted_unique_lengths
          [{ lineId := 1, content := ['a', 'b', 'c', 'd', 'e'] },
           { lineId := 2, content := List.replicate 30 'x' }] ['a', 'b']).zip
        (sorted_unique_lengths
          [{ lineId := 1, content := ['a', 'b', 'c', 'd', 'e'] },
           { lineId := 2, content := List.replicate 30 'x' }] ['a', 'b']).tail ∧
      (group_logs_by_param_length
          [{ lineId := 1, content := ['a', 'b', 'c', 'd', 'e'] },
           { lineId := 2, content := List.replicate 30 'x' }] ['a', 'b']).gap_info.gap_size =
        high - low ∧
      (∀ p ∈ (sorted_unique_lengths
          [{ lineId := 1, content := ['a', 'b', 'c', 'd', 'e'] },
           { lineId := 2, content := List.replicate 30 'x' }] ['a', 'b']).zip
          (sorted_unique_lengths
            [{ lineId := 1, content := ['a', 'b', 'c', 'd', 'e'] },
             { lineId := 2, content := List.replicate 30 'x' }] ['a', 'b']).tail,
        p.2 - p.1 ≤ (group_logs_by_param_length
          [{ lineId := 1, content := ['a', 'b', 'c', 'd', 'e'] },
           { lineId := 2, content := List.replicate 30 'x' }] ['a', 'b']).gap_info.gap_size) ∧
      (group_logs_by_param_length
          [{ lineId := 1, content := ['a', 'b', 'c', 'd', 'e'] },
           { lineId := 2, content := List.replicate 30 'x' }] ['a', 'b']).gap_info.threshold =
        ((low : ℚ) + (high : ℚ)) / 2 ∧
      (low : ℚ) < (group_logs_by_param_length
          [{ lineId := 1, content := ['a', 'b', 'c', 'd', 'e'] },
           { lineId := 2, content := List.replicate 30 'x' }] ['a', 'b']).gap_info.threshold ∧
      (group_logs_by_param_length
          [{ lineId := 1, content := ['a', 'b', 'c', 'd', 'e'] },
           { lineId := 2, content := List.replicate 30 'x' }] ['a', 'b']).gap_info.threshold <
        (high : ℚ) ∧
      ∃ g1 g2 : GroupData,
        (group_logs_by_param_length
            [{ lineId := 1, content := ['a', 'b', 'c', 'd', 'e'] },
             { lineId := 2, content := List.replicate 30 'x' }] ['a', 'b']).groups = [g1, g2] ∧
        g1.members ≠ [] ∧ g2.members ≠ [] ∧
        ∀ d ∈ length_details
            [{ lineId := 1, content := ['a', 'b', 'c', 'd', 'e'] },
             { lineId := 2, content := List.replicate 30 'x' }] ['a', 'b'],
          (d ∈ g1.members ↔ (d.2 : ℚ) < (group_logs_by_param_length
              [{ lineId := 1, content := ['a', 'b', 'c', 'd', 'e'] },
               { lineId := 2, content := List.replicate 30 'x' }] ['a', 'b']).gap_info.threshold) ∧
          (d ∈ g2.members ↔ ¬ ((d.2 : ℚ) < (group_logs_by_param_length
              [{ lineId := 1, content := ['a', 'b', 'c', 'd', 'e'] },
               { lineId := 2, content := List.replicate 30 'x' }] ['a', 'b']).gap_info.threshold)) := by
  have hlen : 2 ≤ (sorted_unique_lengths
      [{ lineId := 1, content := ['a', 'b', 'c', 'd', 'e'] },
       { lineId := 2, content := List.replicate 30 'x' }] ['a', 'b']).length := by
    unfold sorted_unique_lengths
    rw [Finset.length_sort]
    decide
  exact ⟨hlen,
    length_gap_bisection
      [{ lineId := 1, content := ['a', 'b', 'c', 'd', 'e'] },
       { lineId := 2, content := List.replicate 30 'x' }] ['a', 'b'] hlen⟩

end LogTR
